import Mathlib

/-!
Verification of the QEMU block write-threshold module
(`block/write-threshold.c`, `include/block/write-threshold.h`).

Machine integers are modelled as `Nat` with explicit reduction modulo
`2 ^ 64` where the C code performs `uint64_t` arithmetic.  Stateful code
(the legacy per-node notifier path and the interposing filter driver) is
modelled by explicit state passing: each operation returns the new state
together with the list of `BLOCK_WRITE_THRESHOLD` events it emits.
-/

/-- The modulus `2 ^ 64` of `uint64_t` arithmetic. -/
def UINT64_MOD : Nat := 18446744073709551616

/-- Wrapping `uint64_t` addition. -/
def add64 (a b : Nat) : Nat := (a + b) % UINT64_MOD

/-- Wrapping `uint64_t` subtraction (operands taken mod `2 ^ 64`). -/
def sub64 (a b : Nat) : Nat := (a % UINT64_MOD + UINT64_MOD - b % UINT64_MOD) % UINT64_MOD

/-- Embeds `bdrv_write_threshold_exceeded` from `block/write-threshold.c`, lines
158-170, with `uint64_t` arithmetic made explicit:

    if (threshold) {
        if (offset > threshold) {
            return (offset - threshold) + bytes;
        }
        if ((offset + bytes) > threshold) {
            return (offset + bytes) - threshold;
        }
    }
    return 0;
-/
def bdrv_write_threshold_exceeded (threshold offset bytes : Nat) : Nat :=
  if threshold ≠ 0 then
    if offset > threshold then
      add64 (sub64 offset threshold) bytes
    else if add64 offset bytes > threshold then
      sub64 (add64 offset bytes) threshold
    else 0
  else 0

lemma add64_eq_of_lt (a b : Nat) (h : a + b < UINT64_MOD) : add64 a b = a + b := by
  unfold add64
  exact Nat.mod_eq_of_lt h

lemma sub64_eq_of_le (a b : Nat) (hb : b ≤ a) (ha : a < UINT64_MOD) :
    sub64 a b = a - b := by
  unfold sub64 UINT64_MOD at *
  omega

lemma exceeded_disabled (offset bytes : Nat) :
    bdrv_write_threshold_exceeded 0 offset bytes = 0 := by
  unfold bdrv_write_threshold_exceeded
  simp

lemma exceeded_beyond (threshold offset bytes : Nat) (h0 : threshold ≠ 0)
    (hgt : threshold < offset) (ho : offset < UINT64_MOD)
    (hnof : offset + bytes < UINT64_MOD) :
    bdrv_write_threshold_exceeded threshold offset bytes
      = (offset - threshold) + bytes := by
  unfold bdrv_write_threshold_exceeded
  rw [if_pos h0, if_pos hgt, sub64_eq_of_le offset threshold (by omega) ho,
      add64_eq_of_lt _ _ (by omega)]

lemma exceeded_straddle (threshold offset bytes : Nat) (h0 : threshold ≠ 0)
    (hle : offset ≤ threshold) (hst : threshold < offset + bytes)
    (hnof : offset + bytes < UINT64_MOD) :
    bdrv_write_threshold_exceeded threshold offset bytes
      = (offset + bytes) - threshold := by
  unfold bdrv_write_threshold_exceeded
  rw [if_pos h0, if_neg (by omega), add64_eq_of_lt offset bytes hnof,
      if_pos hst, sub64_eq_of_le _ _ (by omega) hnof]

lemma exceeded_below (threshold offset bytes : Nat) (h0 : threshold ≠ 0)
    (hbelow : offset + bytes ≤ threshold) (hnof : offset + bytes < UINT64_MOD) :
    bdrv_write_threshold_exceeded threshold offset bytes = 0 := by
  unfold bdrv_write_threshold_exceeded
  rw [if_pos h0, if_neg (by omega), add64_eq_of_lt offset bytes hnof,
      if_neg (by omega)]

/-- C1: `bdrv_write_threshold_exceeded` returns 0 when the threshold is
disabled, `(offset - threshold) + bytes` when the request starts beyond the
mark, `(offset + bytes) - threshold` when it straddles the mark, and 0
otherwise; in particular a request exactly touching the mark
(`offset + bytes = threshold`) returns 0. -/
theorem exceeded_branch_spec (threshold offset bytes : Nat)
    (ht : threshold < UINT64_MOD) (ho : offset < UINT64_MOD)
    (hb : bytes < UINT64_MOD) (hnof : offset + bytes < UINT64_MOD) :
    (threshold = 0 → bdrv_write_threshold_exceeded threshold offset bytes = 0) ∧
    (0 < threshold → threshold < offset →
      bdrv_write_threshold_exceeded threshold offset bytes
        = (offset - threshold) + bytes) ∧
    (0 < threshold → offset ≤ threshold → threshold < offset + bytes →
      bdrv_write_threshold_exceeded threshold offset bytes
        = (offset + bytes) - threshold) ∧
    (0 < threshold → offset + bytes ≤ threshold →
      bdrv_write_threshold_exceeded threshold offset bytes = 0) := by
  refine ⟨?_, ?_, ?_, ?_⟩
  · intro h; subst h; exact exceeded_disabled offset bytes
  · intro hpos hgt
    exact exceeded_beyond threshold offset bytes (by omega) hgt ho hnof
  · intro hpos hle hstraddle
    exact exceeded_straddle threshold offset bytes (by omega) hle hstraddle hnof
  · intro hpos hbelow
    exact exceeded_below threshold offset bytes (by omega) hbelow hnof

/-- Witness for C1 at `threshold = 4194304`, `offset = 4193280`,
`bytes = 2048` (scenario B of the test suite: straddling, amount 1024). -/
theorem exceeded_branch_spec_witness :
    bdrv_write_threshold_exceeded 4194304 4193280 2048 = 1024 :=
  ((exceeded_branch_spec 4194304 4193280 2048 (by decide) (by decide)
      (by decide) (by decide)).2.2.1 (by decide) (by decide) (by decide)).trans
    (by decide)

/-- The same branch structure as `bdrv_write_threshold_exceeded`, evaluated
over unbounded integers: the exact mathematical value the `uint64_t` code is
meant to compute. -/
def exceeded_int (threshold offset bytes : Int) : Int :=
  if threshold ≠ 0 then
    if offset > threshold then
      (offset - threshold) + bytes
    else if offset + bytes > threshold then
      (offset + bytes) - threshold
    else 0
  else 0

/-- C4: given `offset + bytes ≤ UINT64_MAX`, the `uint64_t` computation of
`bdrv_write_threshold_exceeded` equals the exact unbounded-integer value —
no subtraction underflows and no addition wraps in either positive branch. -/
theorem exceeded_no_overflow (threshold offset bytes : Nat)
    (ht : threshold < UINT64_MOD) (ho : offset < UINT64_MOD)
    (hb : bytes < UINT64_MOD) (hnof : offset + bytes < UINT64_MOD) :
    (bdrv_write_threshold_exceeded threshold offset bytes : Int)
      = exceeded_int threshold offset bytes := by
  unfold exceeded_int
  by_cases h0 : threshold = 0
  · subst h0
    simp [exceeded_disabled]
  · rw [if_pos (by exact_mod_cast h0)]
    by_cases hgt : offset > threshold
    · rw [if_pos (by exact_mod_cast hgt),
          exceeded_beyond threshold offset bytes h0 hgt ho hnof]
      push_cast
      omega
    · rw [if_neg (by exact_mod_cast hgt)]
      by_cases hst : offset + bytes > threshold
      · rw [if_pos (by exact_mod_cast hst),
            exceeded_straddle threshold offset bytes h0 (by omega) hst hnof]
        push_cast
        omega
      · rw [if_neg (by exact_mod_cast hst),
            exceeded_below threshold offset bytes h0 (by omega) hnof]
        simp

/-- Witness for C4 at `threshold = 1000`, `offset = 1500`, `bytes = 300`
(request entirely beyond the mark). -/
theorem exceeded_no_overflow_witness :
    (bdrv_write_threshold_exceeded 1000 1500 300 : Int)
      = exceeded_int 1000 1500 300 :=
  exceeded_no_overflow 1000 1500 300 (by decide) (by decide) (by decide)
    (by decide)

/-- The reference definition of C8: `max 0 ((offset + bytes) - threshold)` for an
armed threshold, computed in exact arithmetic (`Nat` subtraction truncates at
zero, realizing the `max`). -/
def exceeded_ref (threshold offset bytes : Nat) : Nat :=
  if threshold ≠ 0 then (offset + bytes) - threshold else 0

/-- C8: for an armed threshold and a non-overflowing request, the two
positive branches of `bdrv_write_threshold_exceeded` agree, and the whole
function equals `max 0 ((offset + bytes) - threshold)`; the result depends on
`offset` and `bytes` only through their sum. -/
theorem exceeded_eq_ref (threshold offset bytes : Nat)
    (ht : 0 < threshold) (htw : threshold < UINT64_MOD)
    (ho : offset < UINT64_MOD) (hb : bytes < UINT64_MOD)
    (hnof : offset + bytes < UINT64_MOD) :
    bdrv_write_threshold_exceeded threshold offset bytes
      = exceeded_ref threshold offset bytes ∧
    (∀ offset2 bytes2, offset2 < UINT64_MOD → bytes2 < UINT64_MOD →
      offset2 + bytes2 = offset + bytes →
      bdrv_write_threshold_exceeded threshold offset2 bytes2
        = bdrv_write_threshold_exceeded threshold offset bytes) := by
  have key : ∀ o b, o < UINT64_MOD → b < UINT64_MOD → o + b < UINT64_MOD →
      bdrv_write_threshold_exceeded threshold o b = (o + b) - threshold := by
    intro o b hoo hbb hnn
    unfold bdrv_write_threshold_exceeded
    rw [if_pos (by omega)]
    by_cases hgt : o > threshold
    · rw [if_pos hgt, sub64_eq_of_le o threshold (by omega) hoo,
          add64_eq_of_lt _ _ (by omega)]
      omega
    · rw [if_neg hgt, add64_eq_of_lt o b hnn]
      by_cases hst : o + b > threshold
      · rw [if_pos hst, sub64_eq_of_le _ _ (by omega) hnn]
      · rw [if_neg hst]
        omega
  constructor
  · rw [key offset bytes ho hb hnof]
    unfold exceeded_ref
    rw [if_pos (by omega)]
  · intro o2 b2 ho2 hb2 hsum
    rw [key o2 b2 ho2 hb2 (by omega), key offset bytes ho hb hnof, hsum]

/-- Witness for C8 at `threshold = 100`: the swap `offset = 90, bytes = 20`
versus `offset = 20, bytes = 90` gives the same amount `10`. -/
theorem exceeded_eq_ref_witness :
    bdrv_write_threshold_exceeded 100 90 20 = exceeded_ref 100 90 20 ∧
    bdrv_write_threshold_exceeded 100 20 90
      = bdrv_write_threshold_exceeded 100 90 20 :=
  ⟨(exceeded_eq_ref 100 90 20 (by decide) (by decide) (by decide) (by decide)
      (by decide)).1,
   (exceeded_eq_ref 100 90 20 (by decide) (by decide) (by decide) (by decide)
      (by decide)).2 20 90 (by decide) (by decide) (by decide)⟩

/-!  State of the legacy path: the fields of `BlockDriverState` that
`block/write-threshold.c` reads or writes (`write_threshold_offset`, the
registration status of `write_threshold_notifier`, and `node_name`). -/
structure BDS where
  write_threshold_offset : Nat
  notifier_registered : Bool
  node_name : String
deriving DecidableEq, Repr

/-- A `BLOCK_WRITE_THRESHOLD` QAPI event
(`qapi_event_send_block_write_threshold`): node identity, amount by which
the request exceeded the mark, and the configured threshold. -/
structure CrossingEvent where
  node : String
  amount : Nat
  write_threshold : Nat
deriving DecidableEq, Repr

/-- Embeds `bdrv_write_threshold_get_legacy`, lines 24-27. -/
def bdrv_write_threshold_get_legacy (bs : BDS) : Nat :=
  bs.write_threshold_offset

/-- Embeds `bdrv_write_threshold_is_set_legacy`, lines 29-32. -/
def bdrv_write_threshold_is_set_legacy (bs : BDS) : Bool :=
  bs.write_threshold_offset > 0

/-- Embeds `write_threshold_disable_legacy`, lines 34-40: if armed, remove the
notifier and clear the threshold. -/
def write_threshold_disable_legacy (bs : BDS) : BDS :=
  if bdrv_write_threshold_is_set_legacy bs then
    { bs with notifier_registered := false, write_threshold_offset := 0 }
  else bs

/-- Embeds `before_write_notify`, lines 42-65: compute the exceedance amount for
the tracked request; if positive, send the event (node name, amount,
`bs->write_threshold_offset`) and auto-disable; always return 0 so other
notifiers run.  Returns (new state, emitted events, return value). -/
def before_write_notify (bs : BDS) (offset bytes : Nat) :
    BDS × List CrossingEvent × Int :=
  let threshold := bdrv_write_threshold_get_legacy bs
  let amount := bdrv_write_threshold_exceeded threshold offset bytes
  if amount > 0 then
    (write_threshold_disable_legacy bs,
     [⟨bs.node_name, amount, bs.write_threshold_offset⟩], 0)
  else
    (bs, [], 0)

/-- Embeds `write_threshold_register_notifier`, lines 67-71. -/
def write_threshold_register_notifier (bs : BDS) : BDS :=
  { bs with notifier_registered := true }

/-- Embeds `write_threshold_update_legacy`, lines 73-77. -/
def write_threshold_update_legacy (bs : BDS) (threshold_bytes : Nat) : BDS :=
  { bs with write_threshold_offset := threshold_bytes }

/-- Embeds `bdrv_write_threshold_set_legacy`, lines 79-96. -/
def bdrv_write_threshold_set_legacy (bs : BDS) (threshold_bytes : Nat) : BDS :=
  if bdrv_write_threshold_is_set_legacy bs then
    if threshold_bytes > 0 then
      write_threshold_update_legacy bs threshold_bytes
    else
      write_threshold_disable_legacy bs
  else
    if threshold_bytes > 0 then
      write_threshold_update_legacy (write_threshold_register_notifier bs)
        threshold_bytes
    else
      bs

/-!  State of the filter path: the `uint64_t` threshold stashed in the
untyped per-instance storage of the filter node, and the
node name of the wrapped child (`child_bs(bs)->node_name`). -/
structure FilterState where
  threshold : Nat
  child_node_name : String
deriving DecidableEq, Repr

/-- Embeds `bdrv_write_threshold_is_set`, lines 144-148 (filter variant). -/
def bdrv_write_threshold_is_set (st : FilterState) : Bool :=
  st.threshold > 0

/-- Embeds `bdrv_write_threshold_disable`, lines 150-156 (filter variant). -/
def bdrv_write_threshold_disable (st : FilterState) : FilterState :=
  if bdrv_write_threshold_is_set st then { st with threshold := 0 } else st

/-- Embeds `bdrv_write_threshold_update`, lines 173-178 (filter variant). -/
def bdrv_write_threshold_update (st : FilterState) (threshold_bytes : Nat) :
    FilterState :=
  { st with threshold := threshold_bytes }

/-- Embeds `bdrv_write_threshold_check_amount`, lines 180-196: compute the amount;
if positive, send the event (child node name, amount, threshold) and
auto-disable.  Returns (new state, emitted events). -/
def bdrv_write_threshold_check_amount (st : FilterState) (offset bytes : Nat) :
    FilterState × List CrossingEvent :=
  let threshold := st.threshold
  let amount := bdrv_write_threshold_exceeded threshold offset bytes
  if amount > 0 then
    (bdrv_write_threshold_disable st,
     [⟨st.child_node_name, amount, threshold⟩])
  else
    (st, [])

lemma set_legacy_offset (bs : BDS) (T : Nat) :
    (bdrv_write_threshold_set_legacy bs T).write_threshold_offset = T := by
  unfold bdrv_write_threshold_set_legacy write_threshold_update_legacy
    write_threshold_disable_legacy write_threshold_register_notifier
    bdrv_write_threshold_is_set_legacy
  split_ifs with h1 h2 h3 <;> simp_all

/-- C5: after `bdrv_write_threshold_set_legacy bs T` the state reads back
`get() = T` and `is_set() = (T > 0)`; two successive positive sets are
last-write-wins; a disable request on an already-disarmed guard is a silent
no-op leaving `get() = 0`. -/
theorem set_legacy_spec (bs : BDS) (T : Nat) :
    bdrv_write_threshold_get_legacy (bdrv_write_threshold_set_legacy bs T)
      = T ∧
    bdrv_write_threshold_is_set_legacy (bdrv_write_threshold_set_legacy bs T)
      = decide (0 < T) ∧
    (∀ T2, 0 < T → 0 < T2 →
      bdrv_write_threshold_get_legacy
        (bdrv_write_threshold_set_legacy (bdrv_write_threshold_set_legacy bs T)
          T2) = T2) ∧
    (bdrv_write_threshold_is_set_legacy bs = false →
      bdrv_write_threshold_set_legacy bs 0 = bs ∧
      bdrv_write_threshold_get_legacy (bdrv_write_threshold_set_legacy bs 0)
        = 0) := by
  refine ⟨set_legacy_offset bs T, ?_, ?_, ?_⟩
  · unfold bdrv_write_threshold_is_set_legacy
    rw [set_legacy_offset bs T]
  · intro T2 _ _
    exact set_legacy_offset (bdrv_write_threshold_set_legacy bs T) T2
  · intro hnot
    unfold bdrv_write_threshold_is_set_legacy at hnot
    have h0 : bs.write_threshold_offset = 0 := by simpa using hnot
    constructor
    · unfold bdrv_write_threshold_set_legacy bdrv_write_threshold_is_set_legacy
      simp [h0]
    · exact set_legacy_offset bs 0

/-- Witness for C5: arm at 4 MiB then re-arm at 15 MiB (scenario D), and a
disable request on a fresh disarmed guard (scenario E). -/
theorem set_legacy_spec_witness :
    bdrv_write_threshold_get_legacy
      (bdrv_write_threshold_set_legacy
        (bdrv_write_threshold_set_legacy ⟨0, false, "disk0"⟩ 4194304)
        15728640) = 15728640 ∧
    bdrv_write_threshold_set_legacy ⟨0, false, "disk0"⟩ 0
      = ⟨0, false, "disk0"⟩ :=
  ⟨(set_legacy_spec ⟨0, false, "disk0"⟩ 4194304).2.2.1 15728640 (by decide)
      (by decide),
   ((set_legacy_spec ⟨0, false, "disk0"⟩ 0).2.2.2 (by decide)).1⟩

lemma exceeded_pos_ne_zero (threshold offset bytes : Nat)
    (h : 0 < bdrv_write_threshold_exceeded threshold offset bytes) :
    threshold ≠ 0 := by
  intro h0
  subst h0
  rw [exceeded_disabled] at h
  exact absurd h (by omega)

lemma before_write_notify_quiet (bs : BDS) (offset bytes : Nat)
    (h : bdrv_write_threshold_exceeded (bdrv_write_threshold_get_legacy bs)
        offset bytes = 0) :
    before_write_notify bs offset bytes = (bs, [], 0) := by
  unfold before_write_notify
  simp [h]

lemma before_write_notify_trigger (bs : BDS) (offset bytes : Nat)
    (h : 0 < bdrv_write_threshold_exceeded
        (bdrv_write_threshold_get_legacy bs) offset bytes) :
    before_write_notify bs offset bytes
      = ({ bs with notifier_registered := false, write_threshold_offset := 0 },
         [⟨bs.node_name,
           bdrv_write_threshold_exceeded (bdrv_write_threshold_get_legacy bs)
             offset bytes,
           bs.write_threshold_offset⟩], 0) := by
  have hne : bs.write_threshold_offset ≠ 0 :=
    exceeded_pos_ne_zero _ offset bytes h
  unfold before_write_notify write_threshold_disable_legacy
    bdrv_write_threshold_is_set_legacy
  rw [if_pos h]
  simp [bdrv_write_threshold_get_legacy]
  omega

lemma check_amount_quiet (st : FilterState) (offset bytes : Nat)
    (h : bdrv_write_threshold_exceeded st.threshold offset bytes = 0) :
    bdrv_write_threshold_check_amount st offset bytes = (st, []) := by
  unfold bdrv_write_threshold_check_amount
  simp [h]

lemma check_amount_trigger (st : FilterState) (offset bytes : Nat)
    (h : 0 < bdrv_write_threshold_exceeded st.threshold offset bytes) :
    bdrv_write_threshold_check_amount st offset bytes
      = ({ st with threshold := 0 },
         [⟨st.child_node_name,
           bdrv_write_threshold_exceeded st.threshold offset bytes,
           st.threshold⟩]) := by
  have hne : st.threshold ≠ 0 := exceeded_pos_ne_zero _ offset bytes h
  unfold bdrv_write_threshold_check_amount bdrv_write_threshold_disable
    bdrv_write_threshold_is_set
  rw [if_pos h]
  simp
  omega

/-- A sequence of write requests flowing through the legacy pre-write
notifier, threading the node state and concatenating the emitted events. -/
def run_before_write_notify (bs : BDS) :
    List (Nat × Nat) → BDS × List CrossingEvent
  | [] => (bs, [])
  | (o, b) :: rest =>
      let r := before_write_notify bs o b
      let rr := run_before_write_notify r.1 rest
      (rr.1, r.2.1 ++ rr.2)

/-- A sequence of write requests flowing through the check of the filter,
threading the filter state and concatenating the emitted events. -/
def run_check_amount (st : FilterState) :
    List (Nat × Nat) → FilterState × List CrossingEvent
  | [] => (st, [])
  | (o, b) :: rest =>
      let r := bdrv_write_threshold_check_amount st o b
      let rr := run_check_amount r.1 rest
      (rr.1, r.2 ++ rr.2)

lemma run_before_write_notify_disarmed (bs : BDS)
    (h : bs.write_threshold_offset = 0) (reqs : List (Nat × Nat)) :
    run_before_write_notify bs reqs = (bs, []) := by
  induction reqs with
  | nil => rfl
  | cons req rest ih =>
      obtain ⟨o, b⟩ := req
      have hq : before_write_notify bs o b = (bs, [], 0) :=
        before_write_notify_quiet bs o b
          (by rw [bdrv_write_threshold_get_legacy, h]; exact
            exceeded_disabled o b)
      unfold run_before_write_notify
      rw [hq]
      simp [ih]

lemma run_check_amount_disarmed (st : FilterState)
    (h : st.threshold = 0) (reqs : List (Nat × Nat)) :
    run_check_amount st reqs = (st, []) := by
  induction reqs with
  | nil => rfl
  | cons req rest ih =>
      obtain ⟨o, b⟩ := req
      have hq : bdrv_write_threshold_check_amount st o b = (st, []) :=
        check_amount_quiet st o b (by rw [h]; exact exceeded_disabled o b)
      unfold run_check_amount
      rw [hq]
      simp [ih]

lemma run_before_write_notify_le_one (bs : BDS) (reqs : List (Nat × Nat)) :
    (run_before_write_notify bs reqs).2.length ≤ 1 := by
  induction reqs generalizing bs with
  | nil => simp [run_before_write_notify]
  | cons req rest ih =>
      obtain ⟨o, b⟩ := req
      by_cases h : 0 < bdrv_write_threshold_exceeded
          (bdrv_write_threshold_get_legacy bs) o b
      · unfold run_before_write_notify
        rw [before_write_notify_trigger bs o b h]
        simp [run_before_write_notify_disarmed
          { write_threshold_offset := 0, notifier_registered := false,
            node_name := bs.node_name } rfl rest]
      · unfold run_before_write_notify
        rw [before_write_notify_quiet bs o b (by omega)]
        simpa using ih bs

lemma run_check_amount_le_one (st : FilterState) (reqs : List (Nat × Nat)) :
    (run_check_amount st reqs).2.length ≤ 1 := by
  induction reqs generalizing st with
  | nil => simp [run_check_amount]
  | cons req rest ih =>
      obtain ⟨o, b⟩ := req
      by_cases h : 0 < bdrv_write_threshold_exceeded st.threshold o b
      · unfold run_check_amount
        rw [check_amount_trigger st o b h]
        simp [run_check_amount_disarmed
          { threshold := 0, child_node_name := st.child_node_name } rfl rest]
      · unfold run_check_amount
        rw [check_amount_quiet st o b (by omega)]
        simpa using ih st

/-- C2: a check invocation (legacy `before_write_notify` or filter
`bdrv_write_threshold_check_amount`) whose computed amount is positive emits
exactly one CrossingEvent carrying that amount and the threshold at the
moment of the check, and leaves the state disarmed (`get() = 0`), so an
immediate second invocation with the same arguments emits nothing; over any
sequence of checks, at most one event is emitted per armed period. -/
theorem check_trigger_once (bs : BDS) (st : FilterState) (offset bytes : Nat)
    (reqs : List (Nat × Nat)) :
    (0 < bdrv_write_threshold_exceeded (bdrv_write_threshold_get_legacy bs)
        offset bytes →
      (before_write_notify bs offset bytes).2.1
        = [⟨bs.node_name,
            bdrv_write_threshold_exceeded (bdrv_write_threshold_get_legacy bs)
              offset bytes,
            bdrv_write_threshold_get_legacy bs⟩] ∧
      bdrv_write_threshold_get_legacy (before_write_notify bs offset bytes).1
        = 0 ∧
      (before_write_notify (before_write_notify bs offset bytes).1 offset
        bytes).2.1 = []) ∧
    (0 < bdrv_write_threshold_exceeded st.threshold offset bytes →
      (bdrv_write_threshold_check_amount st offset bytes).2
        = [⟨st.child_node_name,
            bdrv_write_threshold_exceeded st.threshold offset bytes,
            st.threshold⟩] ∧
      (bdrv_write_threshold_check_amount st offset bytes).1.threshold = 0 ∧
      (bdrv_write_threshold_check_amount
        (bdrv_write_threshold_check_amount st offset bytes).1 offset
          bytes).2 = []) ∧
    (run_before_write_notify bs reqs).2.length ≤ 1 ∧
    (run_check_amount st reqs).2.length ≤ 1 := by
  refine ⟨?_, ?_, run_before_write_notify_le_one bs reqs,
    run_check_amount_le_one st reqs⟩
  · intro h
    rw [before_write_notify_trigger bs offset bytes h]
    refine ⟨rfl, rfl, ?_⟩
    rw [before_write_notify_quiet _ offset bytes
      (by exact exceeded_disabled offset bytes)]
  · intro h
    rw [check_amount_trigger st offset bytes h]
    refine ⟨rfl, rfl, ?_⟩
    rw [check_amount_quiet _ offset bytes
      (by exact exceeded_disabled offset bytes)]

/-- Witness for C2: a 4 MiB threshold crossed by a 4096-byte write starting
exactly at the mark; both paths emit one event with amount 4096 and
disarm. -/
theorem check_trigger_once_witness :
    (0 : Nat) < bdrv_write_threshold_exceeded 4194304 4194304 4096 ∧
    (before_write_notify ⟨4194304, true, "disk0"⟩ 4194304 4096).2.1
      = [⟨"disk0", 4096, 4194304⟩] ∧
    (bdrv_write_threshold_check_amount ⟨4194304, "disk0"⟩ 4194304 4096).2
      = [⟨"disk0", 4096, 4194304⟩] :=
  ⟨by decide,
   ((check_trigger_once ⟨4194304, true, "disk0"⟩ ⟨4194304, "disk0"⟩
        4194304 4096 []).1 (by decide)).1.trans (by decide),
   ((check_trigger_once ⟨4194304, true, "disk0"⟩ ⟨4194304, "disk0"⟩
        4194304 4096 []).2.1 (by decide)).1.trans (by decide)⟩

/-- C3: with the same threshold value, the same guarded-node identity and
the same write request, the legacy pre-write notifier and the filter check
emit the same events (same node identity, amount and threshold, exactly when
the amount is positive) and leave the same threshold value behind (both
disarm after a trigger). -/
theorem legacy_filter_equivalent (T : Nat) (reg : Bool) (name : String)
    (offset bytes : Nat) :
    (before_write_notify ⟨T, reg, name⟩ offset bytes).2.1
      = (bdrv_write_threshold_check_amount ⟨T, name⟩ offset bytes).2 ∧
    bdrv_write_threshold_get_legacy
        (before_write_notify ⟨T, reg, name⟩ offset bytes).1
      = (bdrv_write_threshold_check_amount ⟨T, name⟩ offset bytes).1.threshold := by
  by_cases h : 0 < bdrv_write_threshold_exceeded T offset bytes
  · rw [before_write_notify_trigger ⟨T, reg, name⟩ offset bytes h,
        check_amount_trigger ⟨T, name⟩ offset bytes h]
    exact ⟨rfl, rfl⟩
  · have hz : bdrv_write_threshold_exceeded T offset bytes = 0 := by omega
    rw [before_write_notify_quiet ⟨T, reg, name⟩ offset bytes hz,
        check_amount_quiet ⟨T, name⟩ offset bytes hz]
    exact ⟨rfl, rfl⟩

/-- C10: a check invocation whose computed amount is 0 — threshold disabled
or request at/below the mark — emits no event, leaves the whole state
(including the threshold value) unchanged, and the legacy notifier returns 0
so other notifiers still run; the legacy notifier returns 0 in every case. -/
theorem check_no_trigger_frame (bs : BDS) (st : FilterState)
    (offset bytes : Nat) :
    (bdrv_write_threshold_exceeded (bdrv_write_threshold_get_legacy bs)
        offset bytes = 0 →
      before_write_notify bs offset bytes = (bs, [], 0)) ∧
    (bdrv_write_threshold_exceeded st.threshold offset bytes = 0 →
      bdrv_write_threshold_check_amount st offset bytes = (st, [])) ∧
    (before_write_notify bs offset bytes).2.2 = 0 := by
  refine ⟨before_write_notify_quiet bs offset bytes,
    check_amount_quiet st offset bytes, ?_⟩
  by_cases h : 0 < bdrv_write_threshold_exceeded
      (bdrv_write_threshold_get_legacy bs) offset bytes
  · rw [before_write_notify_trigger bs offset bytes h]
  · rw [before_write_notify_quiet bs offset bytes (by omega)]

/-- Witness for C10: threshold 4 MiB, write `offset = 1024, bytes = 1024`
(scenario A, entirely below the mark): no event, state untouched, return
0. -/
theorem check_no_trigger_frame_witness :
    bdrv_write_threshold_exceeded 4194304 1024 1024 = 0 ∧
    before_write_notify ⟨4194304, true, "disk0"⟩ 1024 1024
      = (⟨4194304, true, "disk0"⟩, [], 0) ∧
    bdrv_write_threshold_check_amount ⟨4194304, "disk0"⟩ 1024 1024
      = (⟨4194304, "disk0"⟩, []) :=
  ⟨by decide,
   (check_no_trigger_frame ⟨4194304, true, "disk0"⟩ ⟨4194304, "disk0"⟩
      1024 1024).1 (by decide),
   (check_no_trigger_frame ⟨4194304, true, "disk0"⟩ ⟨4194304, "disk0"⟩
      1024 1024).2.1 (by decide)⟩

/-- The request a filter method forwards to its child (`bs->file`):
offset, length, payload (the `QEMUIOVector`, kept abstract) and flags. -/
structure ForwardedWrite (α : Type) where
  offset : Nat
  bytes : Nat
  qiov : α
  flags : Nat
deriving DecidableEq, Repr

/-- Embeds `write_threshold_co_preadv`, lines 200-207: forward the read to the
child unchanged; no threshold interaction.  Returns (state, events,
forwarded request, result of the child). -/
def write_threshold_co_preadv {α : Type}
    (child_preadv : Nat → Nat → α → Nat → Int) (st : FilterState)
    (offset bytes : Nat) (qiov : α) (flags : Nat) :
    FilterState × List CrossingEvent × ForwardedWrite α × Int :=
  (st, [], ⟨offset, bytes, qiov, flags⟩, child_preadv offset bytes qiov flags)

/-- Embeds `write_threshold_co_pwritev`, lines 209-217: run the threshold check,
then forward the write to the child unchanged and return its result. -/
def write_threshold_co_pwritev {α : Type}
    (child_pwritev : Nat → Nat → α → Nat → Int) (st : FilterState)
    (offset bytes : Nat) (qiov : α) (flags : Nat) :
    FilterState × List CrossingEvent × ForwardedWrite α × Int :=
  let c := bdrv_write_threshold_check_amount st offset bytes
  (c.1, c.2, ⟨offset, bytes, qiov, flags⟩,
   child_pwritev offset bytes qiov flags)

/-- Embeds `write_threshold_co_pwrite_zeroes`, lines 219-227: check, then forward
the zero-fill request (offset, bytes, flags) to the child unchanged. -/
def write_threshold_co_pwrite_zeroes
    (child_pwrite_zeroes : Nat → Nat → Nat → Int) (st : FilterState)
    (offset bytes flags : Nat) :
    FilterState × List CrossingEvent × (Nat × Nat × Nat) × Int :=
  let c := bdrv_write_threshold_check_amount st offset bytes
  (c.1, c.2, (offset, bytes, flags), child_pwrite_zeroes offset bytes flags)

/-- Embeds `write_threshold_co_pdiscard`, lines 229-234: check, then forward the
discard (offset, bytes) to the child unchanged. -/
def write_threshold_co_pdiscard (child_pdiscard : Nat → Nat → Int)
    (st : FilterState) (offset bytes : Nat) :
    FilterState × List CrossingEvent × (Nat × Nat) × Int :=
  let c := bdrv_write_threshold_check_amount st offset bytes
  (c.1, c.2, (offset, bytes), child_pdiscard offset bytes)

/-- Embeds `write_threshold_getlength`, lines 237-240: report the length of the child;
no threshold interaction. -/
def write_threshold_getlength (child_getlength : Int) (st : FilterState) :
    FilterState × List CrossingEvent × Int :=
  (st, [], child_getlength)

/-- Embeds `write_threshold_co_flush`, lines 280-283: forward the flush to the
child; no threshold interaction. -/
def write_threshold_co_flush (child_flush : Int) (st : FilterState) :
    FilterState × List CrossingEvent × Int :=
  (st, [], child_flush)

/-- C6: every write, zero-fill write and discard arriving at the filter
invokes the threshold check and then forwards the request to the child with
offset, bytes, payload and flags unchanged, returning the result of the child
unchanged; the outcome of the check (any two filter states, triggering or
not) never alters the forwarded request, its result, or whether it is
issued. -/
theorem filter_write_paths_forward_unchanged {α : Type}
    (child_pwritev : Nat → Nat → α → Nat → Int)
    (child_pwrite_zeroes : Nat → Nat → Nat → Int)
    (child_pdiscard : Nat → Nat → Int)
    (st st2 : FilterState) (offset bytes : Nat) (qiov : α) (flags : Nat) :
    ((write_threshold_co_pwritev child_pwritev st offset bytes qiov
        flags).1
      = (bdrv_write_threshold_check_amount st offset bytes).1 ∧
     (write_threshold_co_pwritev child_pwritev st offset bytes qiov
        flags).2.1
      = (bdrv_write_threshold_check_amount st offset bytes).2 ∧
     (write_threshold_co_pwritev child_pwritev st offset bytes qiov
        flags).2.2
      = (⟨offset, bytes, qiov, flags⟩,
         child_pwritev offset bytes qiov flags) ∧
     (write_threshold_co_pwritev child_pwritev st offset bytes qiov
        flags).2.2
      = (write_threshold_co_pwritev child_pwritev st2 offset bytes qiov
          flags).2.2) ∧
    ((write_threshold_co_pwrite_zeroes child_pwrite_zeroes st offset bytes
        flags).1
      = (bdrv_write_threshold_check_amount st offset bytes).1 ∧
     (write_threshold_co_pwrite_zeroes child_pwrite_zeroes st offset bytes
        flags).2.1
      = (bdrv_write_threshold_check_amount st offset bytes).2 ∧
     (write_threshold_co_pwrite_zeroes child_pwrite_zeroes st offset bytes
        flags).2.2
      = ((offset, bytes, flags),
         child_pwrite_zeroes offset bytes flags) ∧
     (write_threshold_co_pwrite_zeroes child_pwrite_zeroes st offset bytes
        flags).2.2
      = (write_threshold_co_pwrite_zeroes child_pwrite_zeroes st2 offset
          bytes flags).2.2) ∧
    ((write_threshold_co_pdiscard child_pdiscard st offset bytes).1
      = (bdrv_write_threshold_check_amount st offset bytes).1 ∧
     (write_threshold_co_pdiscard child_pdiscard st offset bytes).2.1
      = (bdrv_write_threshold_check_amount st offset bytes).2 ∧
     (write_threshold_co_pdiscard child_pdiscard st offset bytes).2.2
      = ((offset, bytes), child_pdiscard offset bytes) ∧
     (write_threshold_co_pdiscard child_pdiscard st offset bytes).2.2
      = (write_threshold_co_pdiscard child_pdiscard st2 offset bytes).2.2) :=
  ⟨⟨rfl, rfl, rfl, rfl⟩, ⟨rfl, rfl, rfl, rfl⟩, ⟨rfl, rfl, rfl, rfl⟩⟩

/-- C7: read, flush and length-query on the filter are forwarded to the
child unchanged with no threshold interaction: no check, no event, threshold
state untouched, and the reported length equals the length of the child. -/
theorem filter_read_paths_transparent {α : Type}
    (child_preadv : Nat → Nat → α → Nat → Int)
    (child_getlength child_flush : Int) (st : FilterState)
    (offset bytes : Nat) (qiov : α) (flags : Nat) :
    write_threshold_co_preadv child_preadv st offset bytes qiov flags
      = (st, [], ⟨offset, bytes, qiov, flags⟩,
         child_preadv offset bytes qiov flags) ∧
    write_threshold_co_flush child_flush st = (st, [], child_flush) ∧
    write_threshold_getlength child_getlength st
      = (st, [], child_getlength) :=
  ⟨rfl, rfl, rfl⟩

/-- Embeds `write_threshold_close`, lines 276-278: the driver close hook has an
empty body — it touches no state and emits no event. -/
def write_threshold_close (st : FilterState) : FilterState × List CrossingEvent :=
  (st, [])

/-- A filter node: its threshold state plus whether the reference to the
wrapped child node is still held. -/
structure FilterNode where
  state : FilterState
  child_attached : Bool
deriving DecidableEq, Repr

/-- Modelled from the spec: closing a node runs the close hook of the driver
(`write_threshold_close`, whose body is empty) and then "releases the child
reference"; the generic block-layer teardown that drops the child reference
is not part of the sources of this module. -/
def close_filter_node (n : FilterNode) : FilterNode × List CrossingEvent :=
  let c := write_threshold_close n.state
  ({ state := c.1, child_attached := false }, c.2)

/-- C9: closing the filter node releases the child reference and emits no
CrossingEvent, for every state — in particular even when the threshold is
still armed at the moment of close. -/
theorem close_releases_child_no_event (n : FilterNode) :
    (close_filter_node n).2 = [] ∧
    (close_filter_node n).1.child_attached = false ∧
    (0 < n.state.threshold → (close_filter_node n).2 = []) :=
  ⟨rfl, rfl, fun _ => rfl⟩

/-- Witness for C9 on an armed node (threshold 4 MiB, child attached). -/
theorem close_releases_child_no_event_witness :
    (0 : Nat) < (4194304 : Nat) ∧
    (close_filter_node ⟨⟨4194304, "disk0"⟩, true⟩).2 = [] :=
  ⟨by decide,
   (close_releases_child_no_event ⟨⟨4194304, "disk0"⟩, true⟩).2.2
     (by decide)⟩
